import Mathlib

/-!
Verification of the kwpm orchestrator (`src/kwpm-api/src/main.rs`).

The Rust program manages a single MariaDB instance on a Kubernetes cluster:
it discovers existing instances by namespace-naming convention
(`get_kwpm_namespaces`, `is_mariadb_created`), composes a multi-resource
deployment from templates plus runtime parameters and creates the resources
in dependency order (`create_mariadb_if_not_exists`), and tears the instance
down (`remove_mariadb`).

The embedding below models the Kubernetes objects the program touches as
plain structures, the remote API as a step function on an explicit cluster
state (`runCall`), and each remote call as fallible: an oracle `fail`
decides which calls the remote side rejects, on top of the natural
Kubernetes failure modes (create on an existing name, delete on a missing
name).  Each orchestration operation returns the trace of API calls it
issued, the resulting cluster state (the state after the last successful
call), and an optional error, mirroring the Rust `Result` plus the real
side effects.
-/

namespace Kwpm

/-- Mirrors `kube::api::ObjectMeta`: only the `name` field is used by the program. -/
structure ObjectMeta where
  name : Option String
deriving DecidableEq, Repr

/-- Mirrors `k8s_openapi::api::core::v1::Namespace`. -/
structure Namespace where
  metadata : ObjectMeta
deriving DecidableEq, Repr

/-- Mirrors `k8s_openapi::api::core::v1::NodeSelectorRequirement`. -/
structure NodeSelectorRequirement where
  key : String
  operator : String
  values : Option (List String)
deriving DecidableEq, Repr

/-- Mirrors `k8s_openapi::api::core::v1::NodeSelectorTerm` (only `match_expressions`
is set by the program; the other fields stay at their defaults). -/
structure NodeSelectorTerm where
  match_expressions : Option (List NodeSelectorRequirement)
deriving DecidableEq, Repr

/-- Mirrors `k8s_openapi::api::core::v1::NodeSelector`. -/
structure NodeSelector where
  node_selector_terms : List NodeSelectorTerm
deriving DecidableEq, Repr

/-- Mirrors `k8s_openapi::api::core::v1::VolumeNodeAffinity`. -/
structure VolumeNodeAffinity where
  required : Option NodeSelector
deriving DecidableEq, Repr

/-- Mirrors `k8s_openapi::api::core::v1::LocalVolumeSource`: the `path` field. -/
structure LocalVolumeSource where
  path : String
deriving DecidableEq, Repr

/-- Mirrors `k8s_openapi::api::core::v1::PersistentVolumeSpec`: the two fields the
program reads or writes (`local`, `node_affinity`). -/
structure PersistentVolumeSpec where
  «local» : Option LocalVolumeSource
  node_affinity : Option VolumeNodeAffinity
deriving DecidableEq, Repr

/-- Mirrors `k8s_openapi::api::core::v1::PersistentVolume`. -/
structure PersistentVolume where
  metadata : ObjectMeta
  spec : Option PersistentVolumeSpec
deriving DecidableEq, Repr

/-- Mirrors `k8s_openapi::api::core::v1::PersistentVolumeClaim`: treated as opaque
by the program except for its name. -/
structure PersistentVolumeClaim where
  metadata : ObjectMeta
deriving DecidableEq, Repr

/-- Mirrors `k8s_openapi::api::core::v1::Service`: treated as opaque by the program
except for its name. -/
structure Service where
  metadata : ObjectMeta
deriving DecidableEq, Repr

/-- Mirrors `k8s_openapi::api::core::v1::Secret`: the program sets `metadata.name`
and `string_data` (an association list standing for the `BTreeMap`). -/
structure Secret where
  metadata : ObjectMeta
  string_data : Option (List (String × String))
deriving DecidableEq, Repr

/-- Mirrors `k8s_openapi::api::apps::v1::Deployment`: treated as opaque by the
program except for its name. -/
structure Deployment where
  metadata : ObjectMeta
deriving DecidableEq, Repr

/-- The name of a namespace as the program reads it:
`ns.metadata.name.as_ref().unwrap_or(&"".to_string())`. -/
def nsName (ns : Namespace) : String :=
  ns.metadata.name.getD ""

/-- The name of a persistent volume, read the same way. -/
def pvName (pv : PersistentVolume) : String :=
  pv.metadata.name.getD ""

/-- Rust `str::starts_with(pat)`, expressed over the string's character
sequence (Lean's built-in `String.startsWith` is byte-position based and
does not reduce in the kernel). -/
def strStartsWith (s pat : String) : Bool :=
  pat.data.isPrefixOf s.data

/-- Rust `str::ends_with(pat)`, expressed over the string's character
sequence. -/
def strEndsWith (s pat : String) : Bool :=
  pat.data.isSuffixOf s.data

/-- Mirrors `KwpmClient::get_kwpm_namespaces`, applied to the list returned by
`get_namespaces`: keep the namespaces whose name starts with `kwpm-`. -/
def get_kwpm_namespaces (l : List Namespace) : List Namespace :=
  l.filter (fun ns => strStartsWith (ns.metadata.name.getD "") "kwpm-")

/-- Mirrors `KwpmClient::is_mariadb_created`: true iff some kwpm namespace name
ends with `-mariadb`. -/
def is_mariadb_created (l : List Namespace) : Bool :=
  (get_kwpm_namespaces l).any
    (fun ns => strEndsWith (ns.metadata.name.getD "") "-mariadb")

/-- The errors the program surfaces: the `bail!("MariaDB deployment already
exists")` precondition failure, and any error coming back from the
Kubernetes API (`kube::Error`, propagated by `?`). -/
inductive KwpmError where
  | alreadyExists (msg : String)
  | remoteAPIError
deriving DecidableEq, Repr

/-- One remote call the program can issue through a `kube::Api` handle.
Namespaced calls carry the namespace the `Api` handle was scoped to. -/
inductive ApiCall where
  | createNamespace (ns : Namespace)
  | createPV (pv : PersistentVolume)
  | createPVC (nsScope : String) (pvc : PersistentVolumeClaim)
  | createService (nsScope : String) (svc : Service)
  | createSecret (nsScope : String) (secret : Secret)
  | createDeployment (nsScope : String) (dep : Deployment)
  | deleteNamespace (name : String)
  | deletePV (name : String)
deriving DecidableEq, Repr

/-- Whether a call is a deletion. -/
def ApiCall.isDelete : ApiCall → Bool
  | .deleteNamespace _ => true
  | .deletePV _ => true
  | _ => false

/-- Whether a call can change the set of namespaces. -/
def ApiCall.touchesNamespaces : ApiCall → Bool
  | .createNamespace _ => true
  | .deleteNamespace _ => true
  | _ => false

/-- The cluster state visible to the program: the resources of each kind,
namespaced kinds paired with the namespace they live in. -/
structure Cluster where
  namespaces : List Namespace
  pvs : List PersistentVolume
  pvcs : List (String × PersistentVolumeClaim)
  services : List (String × Service)
  secrets : List (String × Secret)
  deployments : List (String × Deployment)
deriving DecidableEq, Repr

/-- Kubernetes-like semantics of one remote call: `create` fails when an
object of the same kind and name already exists in scope, `delete` fails
when no such object exists (not-found), both reported to the program as a
remote API error; a successful `create` appends the object and a
successful `delete` removes the named object. -/
def runCall (c : Cluster) : ApiCall → Except KwpmError Cluster
  | .createNamespace ns =>
    if c.namespaces.any (fun n => nsName n == nsName ns) then
      .error .remoteAPIError
    else
      .ok { c with namespaces := c.namespaces ++ [ns] }
  | .createPV pv =>
    if c.pvs.any (fun p => pvName p == pvName pv) then
      .error .remoteAPIError
    else
      .ok { c with pvs := c.pvs ++ [pv] }
  | .createPVC s pvc =>
    if c.pvcs.any (fun x => x.1 == s && x.2.metadata.name == pvc.metadata.name) then
      .error .remoteAPIError
    else
      .ok { c with pvcs := c.pvcs ++ [(s, pvc)] }
  | .createService s svc =>
    if c.services.any (fun x => x.1 == s && x.2.metadata.name == svc.metadata.name) then
      .error .remoteAPIError
    else
      .ok { c with services := c.services ++ [(s, svc)] }
  | .createSecret s secret =>
    if c.secrets.any (fun x => x.1 == s && x.2.metadata.name == secret.metadata.name) then
      .error .remoteAPIError
    else
      .ok { c with secrets := c.secrets ++ [(s, secret)] }
  | .createDeployment s dep =>
    if c.deployments.any (fun x => x.1 == s && x.2.metadata.name == dep.metadata.name) then
      .error .remoteAPIError
    else
      .ok { c with deployments := c.deployments ++ [(s, dep)] }
  | .deleteNamespace name =>
    if c.namespaces.any (fun n => nsName n == name) then
      .ok { c with namespaces := c.namespaces.filter (fun n => nsName n != name) }
    else
      .error .remoteAPIError
  | .deletePV name =>
    if c.pvs.any (fun p => pvName p == name) then
      .ok { c with pvs := c.pvs.filter (fun p => pvName p != name) }
    else
      .error .remoteAPIError

/-- Run a sequence of remote calls the way the Rust `?` operator does:
each call is issued in order; a call fails when the oracle `fail` rejects
it or when `runCall` does, and the first failure aborts the rest.
Returns the trace of calls actually issued, the cluster after the last
successful call (a failed call changes nothing), and the error, if any. -/
def runCalls (fail : ApiCall → Bool) :
    Cluster → List ApiCall → List ApiCall × Cluster × Option KwpmError
  | c, [] => ([], c, none)
  | c, a :: rest =>
    if fail a then
      ([a], c, some .remoteAPIError)
    else
      match runCall c a with
      | .error e => ([a], c, some e)
      | .ok c2 =>
        let r := runCalls fail c2 rest
        (a :: r.1, r.2)

/-- The namespace object `create_mariadb_if_not_exists` builds:
`Namespace { metadata: ObjectMeta { name: Some("kwpm-mariadb") } }`. -/
def kwpmMariadbNamespace : Namespace :=
  { metadata := { name := some "kwpm-mariadb" } }

/-- The node-affinity constraint `create_mariadb_if_not_exists` builds
(lines 87-98 of `main.rs`): require the `kubernetes.io/hostname` label to
be `In` the single-element value list `[node_hostname]`. -/
def pinToHost (node_hostname : String) : VolumeNodeAffinity where
  required := some
    { node_selector_terms :=
        [{ match_expressions := some
            [{ key := "kubernetes.io/hostname",
               operator := "In",
               values := some [node_hostname] }] }] }

/-- The parameter injection on the parsed persistent-volume template
(lines 82-99 of `main.rs`): if the template has a `spec`, then (a) if it
also has a `local` source, its `path` is rewritten to
`{pv_base_path}/mariadb`, and (b) `node_affinity` is set to require
`kubernetes.io/hostname In [node_hostname]`; a template without a `spec`
is left untouched. -/
def injectPV (pv_base_path node_hostname : String)
    (pv : PersistentVolume) : PersistentVolume :=
  match pv.spec with
  | none => pv
  | some s =>
    { pv with
      spec := some
        { s with
          «local» := s.«local».map
            (fun l => { l with path := pv_base_path ++ "/mariadb" }),
          node_affinity := some (pinToHost node_hostname) } }

/-- The secret object `create_mariadb_if_not_exists` builds: name
`mysql-pass`, `string_data` holding exactly
`{"password": mysql_root_password}`. -/
def mariadbSecret (mysql_root_password : String) : Secret :=
  { metadata := { name := some "mysql-pass" },
    string_data := some [("password", mysql_root_password)] }

/-- The creation calls `create_mariadb_if_not_exists` issues once the
precondition check has passed, in source order (lines 128-137):
namespace, persistent volume, persistent volume claim, service, secret,
deployment; the namespaced handles are scoped to `kwpm-mariadb`. -/
def mariadbCalls (pv_base_path mysql_root_password node_hostname : String)
    (pvT : PersistentVolume) (pvcT : PersistentVolumeClaim)
    (svcT : Service) (depT : Deployment) : List ApiCall :=
  [ .createNamespace kwpmMariadbNamespace,
    .createPV (injectPV pv_base_path node_hostname pvT),
    .createPVC "kwpm-mariadb" pvcT,
    .createService "kwpm-mariadb" svcT,
    .createSecret "kwpm-mariadb" (mariadbSecret mysql_root_password),
    .createDeployment "kwpm-mariadb" depT ]

/-- Mirrors `KwpmClient::create_mariadb_if_not_exists`, with the parsed templates
passed in for the `include_str!`/`serde_yaml` loads: if
`is_mariadb_created` reports an existing instance, bail with the
already-exists error without issuing any call; otherwise issue the six
creation calls in order, aborting on the first failure. -/
def create_mariadb_if_not_exists (fail : ApiCall → Bool)
    (pv_base_path mysql_root_password node_hostname : String)
    (pvT : PersistentVolume) (pvcT : PersistentVolumeClaim)
    (svcT : Service) (depT : Deployment) (c : Cluster) :
    List ApiCall × Cluster × Option KwpmError :=
  if is_mariadb_created c.namespaces then
    ([], c, some (.alreadyExists "MariaDB deployment already exists"))
  else
    runCalls fail c
      (mariadbCalls pv_base_path mysql_root_password node_hostname
        pvT pvcT svcT depT)

/-- Mirrors `KwpmClient::remove_mariadb`: delete the namespace `kwpm-mariadb`,
then the persistent volume `kwpm-mariadb-pv`, with no existence check;
either failure propagates. -/
def remove_mariadb (fail : ApiCall → Bool) (c : Cluster) :
    List ApiCall × Cluster × Option KwpmError :=
  runCalls fail c
    [.deleteNamespace "kwpm-mariadb", .deletePV "kwpm-mariadb-pv"]

/-- Modelled from the spec: the static persistent-volume template
`kwpm-api/kubernetes/mariadb/mariadb-pv.yaml` is loaded with
`include_str!` but is not part of the sources given under `src/`.  Per
the spec it parses to a persistent volume with the fixed, well-known name
`kwpm-mariadb-pv` and a spec carrying a local volume source whose path
the Provisioner rewrites; its node affinity is left to be injected.  The
template's original local path is irrelevant to every property proved
here (it is always rewritten), so a placeholder stands for it. -/
def mariadbPVTemplate : PersistentVolume :=
  { metadata := { name := some "kwpm-mariadb-pv" },
    spec := some
      { «local» := some { path := "/template-path" },
        node_affinity := none } }

/-- A cluster with no resources at all, used to instantiate theorems at
concrete inputs. -/
def emptyCluster : Cluster :=
  ⟨[], [], [], [], [], []⟩

/-! ## Helper lemmas -/

/-- The step function `runCall` only ever reports the remote-API error. -/
theorem runCall_error_eq {c : Cluster} {a : ApiCall} {e : KwpmError}
    (h : runCall c a = .error e) : e = .remoteAPIError := by
  cases a <;> (simp only [runCall] at h; split at h <;> cases h <;> rfl)

/-- A successful `createNamespace` call appends the namespace. -/
theorem runCall_createNamespace_ok {c c2 : Cluster} {ns : Namespace}
    (h : runCall c (.createNamespace ns) = .ok c2) :
    c2 = { c with namespaces := c.namespaces ++ [ns] } := by
  simp only [runCall] at h
  split at h <;> cases h <;> rfl

/-- A successful `deleteNamespace` call removes the named namespace. -/
theorem runCall_deleteNamespace_ok {c c2 : Cluster} {name : String}
    (h : runCall c (.deleteNamespace name) = .ok c2) :
    c2 = { c with
           namespaces := c.namespaces.filter (fun n => nsName n != name) } := by
  simp only [runCall] at h
  split at h <;> cases h <;> rfl

/-- A successful call that is neither a namespace creation nor a
namespace deletion leaves the namespace list unchanged. -/
theorem runCall_ns_frozen {c c2 : Cluster} {a : ApiCall}
    (ha : a.touchesNamespaces = false) (h : runCall c a = .ok c2) :
    c2.namespaces = c.namespaces := by
  cases a <;>
    first
      | (simp only [runCall] at h; split at h <;> cases h <;> rfl)
      | simp [ApiCall.touchesNamespaces] at ha

/-- Running a sequence of calls that never touch namespaces leaves the
namespace list unchanged, whether or not the run succeeds. -/
theorem runCalls_ns_frozen {fail : ApiCall → Bool} :
    ∀ {calls : List ApiCall} {c : Cluster},
      (∀ a ∈ calls, a.touchesNamespaces = false) →
      ((runCalls fail c calls).2.1).namespaces = c.namespaces := by
  intro calls
  induction calls with
  | nil => intro c _; rfl
  | cons a rest ih =>
    intro c hall
    cases hf : fail a with
    | true => simp [runCalls, hf]
    | false =>
      cases hr : runCall c a with
      | error e => simp [runCalls, hf, hr]
      | ok c2 =>
        have h1 := runCall_ns_frozen (hall a (by simp)) hr
        have h2 := @ih c2 (fun x hx => hall x (by simp [hx]))
        simp [runCalls, hf, hr, h2, h1]

/-- The trace of `runCalls` is always an initial segment of the requested
call list. -/
theorem runCalls_trace_take {fail : ApiCall → Bool} :
    ∀ {calls : List ApiCall} {c : Cluster},
      ∃ n, n ≤ calls.length ∧ (runCalls fail c calls).1 = calls.take n := by
  intro calls
  induction calls with
  | nil => intro c; exact ⟨0, Nat.le_refl 0, rfl⟩
  | cons a rest ih =>
    intro c
    cases hf : fail a with
    | true => exact ⟨1, Nat.succ_le_succ (Nat.zero_le _), by simp [runCalls, hf]⟩
    | false =>
      cases hr : runCall c a with
      | error e =>
        exact ⟨1, Nat.succ_le_succ (Nat.zero_le _), by simp [runCalls, hf, hr]⟩
      | ok c2 =>
        obtain ⟨n, hn, ht⟩ := @ih c2
        exact ⟨n + 1, Nat.succ_le_succ hn, by simp [runCalls, hf, hr, ht]⟩

/-- A run that reports no error issued every requested call. -/
theorem runCalls_none_trace {fail : ApiCall → Bool} :
    ∀ {calls : List ApiCall} {c : Cluster},
      (runCalls fail c calls).2.2 = none → (runCalls fail c calls).1 = calls := by
  intro calls
  induction calls with
  | nil => intro c _; rfl
  | cons a rest ih =>
    intro c hn
    cases hf : fail a with
    | true => simp [runCalls, hf] at hn
    | false =>
      cases hr : runCall c a with
      | error e => simp [runCalls, hf, hr] at hn
      | ok c2 =>
        have := @ih c2 (by simpa [runCalls, hf, hr] using hn)
        simp [runCalls, hf, hr, this]

/-- A run that reports an error reports the remote-API error, stopped
right after the first failing call — the trace is the successful calls
followed by the failing one — and its resulting state is the state after
running exactly the successful initial segment, with nothing undone. -/
theorem runCalls_some_spec {fail : ApiCall → Bool} :
    ∀ {calls : List ApiCall} {c : Cluster} {e : KwpmError},
      (runCalls fail c calls).2.2 = some e →
      e = .remoteAPIError ∧
      ∃ n, n < calls.length ∧
        (runCalls fail c calls).1 = calls.take (n + 1) ∧
        runCalls fail c (calls.take n)
          = (calls.take n, (runCalls fail c calls).2.1, none) := by
  intro calls
  induction calls with
  | nil => intro c e hn; simp [runCalls] at hn
  | cons a rest ih =>
    intro c e hn
    cases hf : fail a with
    | true =>
      have he : e = .remoteAPIError := by
        simp [runCalls, hf] at hn
        exact hn.symm
      refine ⟨he, 0, Nat.succ_le_succ (Nat.zero_le _), ?_, ?_⟩ <;>
        simp [runCalls, hf]
    | false =>
      cases hr : runCall c a with
      | error e' =>
        have he' : e = e' := by
          simp [runCalls, hf, hr] at hn
          exact hn.symm
        refine ⟨he'.trans (runCall_error_eq hr), 0,
          Nat.succ_le_succ (Nat.zero_le _), ?_, ?_⟩ <;>
          simp [runCalls, hf, hr]
      | ok c2 =>
        have hn2 : (runCalls fail c2 rest).2.2 = some e := by
          simpa [runCalls, hf, hr] using hn
        obtain ⟨he, n, hlen, htr, hpre⟩ := @ih c2 e hn2
        refine ⟨he, n + 1, Nat.succ_lt_succ hlen, ?_, ?_⟩
        · simp [runCalls, hf, hr, htr]
        · simp only [List.take_succ_cons]
          simp [runCalls, hf, hr, hpre]

/-- A namespace in the list whose name has the `kwpm-` start and the
`-mariadb` ending makes the existence check true. -/
theorem is_mariadb_created_of_mem {l : List Namespace} {ns : Namespace}
    (h1 : ns ∈ l) (h2 : strStartsWith (nsName ns) "kwpm-" = true)
    (h3 : strEndsWith (nsName ns) "-mariadb" = true) :
    is_mariadb_created l = true := by
  unfold is_mariadb_created get_kwpm_namespaces
  rw [List.any_eq_true]
  exact ⟨ns, List.mem_filter.2 ⟨h1, h2⟩, h3⟩

/-! ## Claims -/

/-- C2: for every list of namespaces returned by `get_namespaces`,
`get_kwpm_namespaces` returns exactly the subsequence whose names start
with the literal `kwpm-`: it is a sublist (relative order preserved), and
membership holds iff the namespace is in the input and its name has the
`kwpm-` start. -/
theorem get_kwpm_namespaces_exact (l : List Namespace) :
    List.Sublist (get_kwpm_namespaces l) l ∧
    ∀ ns, ns ∈ get_kwpm_namespaces l ↔
      ns ∈ l ∧ strStartsWith (nsName ns) "kwpm-" = true := by
  refine ⟨List.filter_sublist l, fun ns => ?_⟩
  unfold get_kwpm_namespaces
  exact List.mem_filter

/-- C3: `is_mariadb_created` is true iff at least one namespace of
`get_kwpm_namespaces` has a name ending in `-mariadb`, and it is false
whenever the managed set is empty. -/
theorem is_mariadb_created_iff (l : List Namespace) :
    (is_mariadb_created l = true ↔
      ∃ ns, ns ∈ get_kwpm_namespaces l ∧
        strEndsWith (nsName ns) "-mariadb" = true) ∧
    (get_kwpm_namespaces l = [] → is_mariadb_created l = false) := by
  constructor
  · unfold is_mariadb_created
    rw [List.any_eq_true]
    exact Iff.rfl
  · intro h
    unfold is_mariadb_created
    rw [h]
    rfl

/-- Witness for C3 at a concrete namespace list with an empty managed
set. -/
theorem is_mariadb_created_iff_witness :
    get_kwpm_namespaces [⟨⟨some "default"⟩⟩] = [] ∧
    is_mariadb_created [⟨⟨some "default"⟩⟩] = false :=
  ⟨by decide, (is_mariadb_created_iff [⟨⟨some "default"⟩⟩]).2 (by decide)⟩

/-- C8: a namespace whose metadata carries no name is read as the empty
string, is never part of the managed set, and its presence never changes
the result of the existence check; both functions are total on it. -/
theorem unnamed_namespace_ignored (l l1 l2 : List Namespace)
    (ns : Namespace) (h : ns.metadata.name = none) :
    nsName ns = "" ∧
    ns ∉ get_kwpm_namespaces l ∧
    get_kwpm_namespaces (l1 ++ ns :: l2) = get_kwpm_namespaces (l1 ++ l2) ∧
    is_mariadb_created (l1 ++ ns :: l2) = is_mariadb_created (l1 ++ l2) := by
  have hname : ns.metadata.name.getD "" = "" := by rw [h]; rfl
  have hpred : strStartsWith (ns.metadata.name.getD "") "kwpm-" = false := by
    rw [hname]; decide
  have hfilter :
      get_kwpm_namespaces (l1 ++ ns :: l2) = get_kwpm_namespaces (l1 ++ l2) := by
    unfold get_kwpm_namespaces
    rw [List.filter_append, List.filter_append, List.filter_cons, hpred]
    simp
  refine ⟨hname, ?_, hfilter, ?_⟩
  · intro hmem
    have := (List.mem_filter.1 hmem).2
    rw [hpred] at this
    exact Bool.false_ne_true this
  · unfold is_mariadb_created
    rw [hfilter]

/-- Witness for C8 at a concrete unnamed namespace. -/
theorem unnamed_namespace_ignored_witness :
    (⟨⟨none⟩⟩ : Namespace) ∉
        get_kwpm_namespaces [⟨⟨some "kwpm-a"⟩⟩, ⟨⟨none⟩⟩] ∧
    is_mariadb_created [⟨⟨some "kwpm-a"⟩⟩, ⟨⟨none⟩⟩]
      = is_mariadb_created [⟨⟨some "kwpm-a"⟩⟩] :=
  ⟨(unnamed_namespace_ignored [⟨⟨some "kwpm-a"⟩⟩, ⟨⟨none⟩⟩]
      [⟨⟨some "kwpm-a"⟩⟩] [] ⟨⟨none⟩⟩ rfl).2.1,
   (unnamed_namespace_ignored [⟨⟨some "kwpm-a"⟩⟩, ⟨⟨none⟩⟩]
      [⟨⟨some "kwpm-a"⟩⟩] [] ⟨⟨none⟩⟩ rfl).2.2.2⟩

/-- C9: any namespace whose name both starts with `kwpm-` and ends with
`-mariadb` makes `create_mariadb_if_not_exists` bail with the
already-exists error, issuing no call and leaving the cluster unchanged —
whether or not the exact namespace `kwpm-mariadb` (the one
`remove_mariadb` targets) exists. -/
theorem create_blocked_by_suffix_match (fail : ApiCall → Bool)
    (pv_base_path mysql_root_password node_hostname : String)
    (pvT : PersistentVolume) (pvcT : PersistentVolumeClaim)
    (svcT : Service) (depT : Deployment) (c : Cluster) (ns : Namespace)
    (h1 : ns ∈ c.namespaces)
    (h2 : strStartsWith (nsName ns) "kwpm-" = true)
    (h3 : strEndsWith (nsName ns) "-mariadb" = true) :
    create_mariadb_if_not_exists fail pv_base_path mysql_root_password
        node_hostname pvT pvcT svcT depT c
      = ([], c, some (.alreadyExists "MariaDB deployment already exists")) := by
  unfold create_mariadb_if_not_exists
  rw [is_mariadb_created_of_mem h1 h2 h3]
  rfl

/-- Witness for C9: a cluster holding only `kwpm-foo-mariadb` — and in
particular no namespace named `kwpm-mariadb` — still blocks creation. -/
theorem create_blocked_by_suffix_match_witness :
    "kwpm-mariadb" ∉
        (([⟨⟨some "kwpm-foo-mariadb"⟩⟩] : List Namespace).map nsName) ∧
    create_mariadb_if_not_exists (fun _ => false) "/b" "pw" "host"
        mariadbPVTemplate ⟨⟨some "pvc"⟩⟩ ⟨⟨some "svc"⟩⟩ ⟨⟨some "dep"⟩⟩
        ⟨[⟨⟨some "kwpm-foo-mariadb"⟩⟩], [], [], [], [], []⟩
      = ([], ⟨[⟨⟨some "kwpm-foo-mariadb"⟩⟩], [], [], [], [], []⟩,
         some (.alreadyExists "MariaDB deployment already exists")) :=
  ⟨by decide,
   create_blocked_by_suffix_match (fun _ => false) "/b" "pw" "host"
     mariadbPVTemplate ⟨⟨some "pvc"⟩⟩ ⟨⟨some "svc"⟩⟩ ⟨⟨some "dep"⟩⟩
     ⟨[⟨⟨some "kwpm-foo-mariadb"⟩⟩], [], [], [], [], []⟩
     ⟨⟨some "kwpm-foo-mariadb"⟩⟩ (by decide) (by decide) (by decide)⟩


/-- A list of namespaces contained (member-wise) in a list on which the
existence check is false also fails the existence check. -/
theorem is_mariadb_created_false_of_sub {l l' : List Namespace}
    (hsub : ∀ ns, ns ∈ l' → ns ∈ l)
    (hfalse : is_mariadb_created l = false) :
    is_mariadb_created l' = false := by
  cases h : is_mariadb_created l' with
  | false => rfl
  | true =>
    exfalso
    unfold is_mariadb_created get_kwpm_namespaces at h
    rw [List.any_eq_true] at h
    obtain ⟨ns, hmem, hend⟩ := h
    obtain ⟨hmem', hstart⟩ := List.mem_filter.1 hmem
    have := is_mariadb_created_of_mem (hsub ns hmem') hstart hend
    rw [hfalse] at this
    exact Bool.false_ne_true this

/-- Dissecting a successful run of a nonempty call sequence: the first
call succeeded and the run continued from its result. -/
theorem runCalls_cons_none {fail : ApiCall → Bool} {a : ApiCall}
    {rest : List ApiCall} {c : Cluster}
    (hn : (runCalls fail c (a :: rest)).2.2 = none) :
    ∃ c2, runCall c a = .ok c2 ∧
      runCalls fail c (a :: rest)
        = (a :: (runCalls fail c2 rest).1, (runCalls fail c2 rest).2) ∧
      (runCalls fail c2 rest).2.2 = none := by
  cases hf : fail a with
  | true => simp [runCalls, hf] at hn
  | false =>
    cases hr : runCall c a with
    | error e => simp [runCalls, hf, hr] at hn
    | ok c2 =>
      refine ⟨c2, rfl, ?_, ?_⟩
      · simp [runCalls, hf, hr]
      · simpa [runCalls, hf, hr] using hn

/-- When the existence check is false, `create_mariadb_if_not_exists` is
exactly the sequential run of its six creation calls. -/
theorem create_not_exists_eq {fail : ApiCall → Bool} {bp pw nh : String}
    {pvT : PersistentVolume} {pvcT : PersistentVolumeClaim} {svcT : Service}
    {depT : Deployment} {c : Cluster}
    (h : is_mariadb_created c.namespaces = false) :
    create_mariadb_if_not_exists fail bp pw nh pvT pvcT svcT depT c
      = runCalls fail c (mariadbCalls bp pw nh pvT pvcT svcT depT) := by
  simp [create_mariadb_if_not_exists, h]

/-- A run of `create_mariadb_if_not_exists` that reports no error started
from a cluster that failed the existence check. -/
theorem create_success_check_false {fail : ApiCall → Bool} {bp pw nh : String}
    {pvT : PersistentVolume} {pvcT : PersistentVolumeClaim} {svcT : Service}
    {depT : Deployment} {c : Cluster}
    (hn : (create_mariadb_if_not_exists fail bp pw nh pvT pvcT svcT depT c).2.2
      = none) :
    is_mariadb_created c.namespaces = false := by
  cases hc : is_mariadb_created c.namespaces with
  | false => rfl
  | true => simp [create_mariadb_if_not_exists, hc] at hn

/-- After a successful `create_mariadb_if_not_exists`, the cluster's
namespace list is the old one extended by exactly `kwpm-mariadb`. -/
theorem create_success_namespaces {fail : ApiCall → Bool} {bp pw nh : String}
    {pvT : PersistentVolume} {pvcT : PersistentVolumeClaim} {svcT : Service}
    {depT : Deployment} {c : Cluster}
    (hn : (create_mariadb_if_not_exists fail bp pw nh pvT pvcT svcT depT c).2.2
      = none) :
    ((create_mariadb_if_not_exists fail bp pw nh pvT pvcT svcT depT c).2.1).namespaces
      = c.namespaces ++ [kwpmMariadbNamespace] := by
  have hfalse := create_success_check_false hn
  rw [create_not_exists_eq hfalse] at hn ⊢
  simp only [mariadbCalls] at hn ⊢
  obtain ⟨c2, hok, heq, _⟩ := runCalls_cons_none hn
  rw [heq]
  have hfroz : ((runCalls fail c2
      [ApiCall.createPV (injectPV bp nh pvT),
       ApiCall.createPVC "kwpm-mariadb" pvcT,
       ApiCall.createService "kwpm-mariadb" svcT,
       ApiCall.createSecret "kwpm-mariadb" (mariadbSecret pw),
       ApiCall.createDeployment "kwpm-mariadb" depT]).2.1).namespaces
      = c2.namespaces := by
    refine runCalls_ns_frozen ?_
    intro x hx
    simp at hx
    rcases hx with rfl | rfl | rfl | rfl | rfl <;> rfl
  show ((runCalls fail c2
      [ApiCall.createPV (injectPV bp nh pvT),
       ApiCall.createPVC "kwpm-mariadb" pvcT,
       ApiCall.createService "kwpm-mariadb" svcT,
       ApiCall.createSecret "kwpm-mariadb" (mariadbSecret pw),
       ApiCall.createDeployment "kwpm-mariadb" depT]).2.1).namespaces
    = c.namespaces ++ [kwpmMariadbNamespace]
  rw [hfroz, runCall_createNamespace_ok hok]

/-- When the existence check is true, `create_mariadb_if_not_exists`
bails out with the fixed already-exists error, an empty trace and the
cluster unchanged. -/
theorem create_exists_eq {fail : ApiCall → Bool} {bp pw nh : String}
    {pvT : PersistentVolume} {pvcT : PersistentVolumeClaim} {svcT : Service}
    {depT : Deployment} {c : Cluster}
    (h : is_mariadb_created c.namespaces = true) :
    create_mariadb_if_not_exists fail bp pw nh pvT pvcT svcT depT c
      = ([], c, some (.alreadyExists "MariaDB deployment already exists")) := by
  simp [create_mariadb_if_not_exists, h]

/-- C1: when the existence check is true, `create_mariadb_if_not_exists`
fails with the already-exists error, issues no creation call and leaves
the cluster unchanged; consequently a second call right after a
successful one (with any parameters and any remote behaviour) fails that
way and creates nothing. -/
theorem create_already_exists_noop (fail fail2 : ApiCall → Bool)
    (bp pw nh bp2 pw2 nh2 : String)
    (pvT pvT2 : PersistentVolume) (pvcT pvcT2 : PersistentVolumeClaim)
    (svcT svcT2 : Service) (depT depT2 : Deployment) (c : Cluster) :
    (is_mariadb_created c.namespaces = true →
      create_mariadb_if_not_exists fail bp pw nh pvT pvcT svcT depT c
        = ([], c, some (.alreadyExists "MariaDB deployment already exists"))) ∧
    ((create_mariadb_if_not_exists fail bp pw nh pvT pvcT svcT depT c).2.2
        = none →
      create_mariadb_if_not_exists fail2 bp2 pw2 nh2 pvT2 pvcT2 svcT2 depT2
          ((create_mariadb_if_not_exists fail bp pw nh pvT pvcT svcT depT c).2.1)
        = ([],
           (create_mariadb_if_not_exists fail bp pw nh pvT pvcT svcT depT c).2.1,
           some (.alreadyExists "MariaDB deployment already exists"))) := by
  constructor
  · intro h
    exact create_exists_eq h
  · intro hn
    have hns := create_success_namespaces hn
    have hcreated : is_mariadb_created
        ((create_mariadb_if_not_exists fail bp pw nh pvT pvcT svcT depT
          c).2.1).namespaces = true := by
      rw [hns]
      exact is_mariadb_created_of_mem
        (List.mem_append_right _ (List.mem_singleton.2 rfl))
        (by decide) (by decide)
    exact create_exists_eq hcreated

/-- Witness for C1: on an empty cluster, a successful creation followed
by a second creation attempt fails the second attempt with the
already-exists error and no calls. -/
theorem create_already_exists_noop_witness :
    create_mariadb_if_not_exists (fun _ => false) "/d" "pw" "na"
        mariadbPVTemplate ⟨⟨some "pvc"⟩⟩ ⟨⟨some "svc"⟩⟩ ⟨⟨some "dep"⟩⟩
        ((create_mariadb_if_not_exists (fun _ => false) "/d" "pw" "na"
          mariadbPVTemplate ⟨⟨some "pvc"⟩⟩ ⟨⟨some "svc"⟩⟩ ⟨⟨some "dep"⟩⟩
          emptyCluster).2.1)
      = ([],
         (create_mariadb_if_not_exists (fun _ => false) "/d" "pw" "na"
           mariadbPVTemplate ⟨⟨some "pvc"⟩⟩ ⟨⟨some "svc"⟩⟩ ⟨⟨some "dep"⟩⟩
           emptyCluster).2.1,
         some (.alreadyExists "MariaDB deployment already exists")) :=
  (create_already_exists_noop (fun _ => false) (fun _ => false)
    "/d" "pw" "na" "/d" "pw" "na"
    mariadbPVTemplate mariadbPVTemplate ⟨⟨some "pvc"⟩⟩ ⟨⟨some "pvc"⟩⟩
    ⟨⟨some "svc"⟩⟩ ⟨⟨some "svc"⟩⟩ ⟨⟨some "dep"⟩⟩ ⟨⟨some "dep"⟩⟩
    emptyCluster).2 (by decide)

/-- C4: past the existence check, the call sequence is exactly
namespace, persistent volume, persistent volume claim, service, secret,
deployment in that order; every issued call is a creation (no
compensating deletion ever); a run with no error issued all six; a run
with an error issued the successful initial calls plus the single failing
one, reported the remote-API error, and its resulting state is exactly
the state after the successful initial segment. -/
theorem create_sequence_order (fail : ApiCall → Bool) (bp pw nh : String)
    (pvT : PersistentVolume) (pvcT : PersistentVolumeClaim) (svcT : Service)
    (depT : Deployment) (c : Cluster)
    (h : is_mariadb_created c.namespaces = false) :
    mariadbCalls bp pw nh pvT pvcT svcT depT
      = [.createNamespace kwpmMariadbNamespace,
         .createPV (injectPV bp nh pvT),
         .createPVC "kwpm-mariadb" pvcT,
         .createService "kwpm-mariadb" svcT,
         .createSecret "kwpm-mariadb" (mariadbSecret pw),
         .createDeployment "kwpm-mariadb" depT] ∧
    (∀ a ∈ (create_mariadb_if_not_exists fail bp pw nh pvT pvcT svcT depT c).1,
      a.isDelete = false) ∧
    ((create_mariadb_if_not_exists fail bp pw nh pvT pvcT svcT depT c).2.2
        = none →
      (create_mariadb_if_not_exists fail bp pw nh pvT pvcT svcT depT c).1
        = mariadbCalls bp pw nh pvT pvcT svcT depT) ∧
    (∀ e, (create_mariadb_if_not_exists fail bp pw nh pvT pvcT svcT depT c).2.2
        = some e →
      e = .remoteAPIError ∧
      ∃ n, n < (mariadbCalls bp pw nh pvT pvcT svcT depT).length ∧
        (create_mariadb_if_not_exists fail bp pw nh pvT pvcT svcT depT c).1
          = (mariadbCalls bp pw nh pvT pvcT svcT depT).take (n + 1) ∧
        runCalls fail c ((mariadbCalls bp pw nh pvT pvcT svcT depT).take n)
          = ((mariadbCalls bp pw nh pvT pvcT svcT depT).take n,
             (create_mariadb_if_not_exists fail bp pw nh pvT pvcT svcT depT
               c).2.1,
             none)) := by
  have hc := @create_not_exists_eq fail bp pw nh pvT pvcT svcT depT c h
  refine ⟨rfl, ?_, ?_, ?_⟩
  · intro a ha
    rw [hc] at ha
    obtain ⟨n, _, ht⟩ := @runCalls_trace_take fail
      (mariadbCalls bp pw nh pvT pvcT svcT depT) c
    rw [ht] at ha
    have hmem : a ∈ mariadbCalls bp pw nh pvT pvcT svcT depT :=
      List.take_subset n _ ha
    simp only [mariadbCalls, List.mem_cons, List.not_mem_nil, or_false] at hmem
    rcases hmem with rfl | rfl | rfl | rfl | rfl | rfl <;> rfl
  · intro hn
    rw [hc] at hn ⊢
    exact runCalls_none_trace hn
  · intro e he
    rw [hc] at he ⊢
    exact runCalls_some_spec he

/-- Witness for C4: a successful concrete run issues exactly the six
calls in order. -/
theorem create_sequence_order_witness :
    (create_mariadb_if_not_exists (fun _ => false) "/d" "pw" "na"
        mariadbPVTemplate ⟨⟨some "pvc"⟩⟩ ⟨⟨some "svc"⟩⟩ ⟨⟨some "dep"⟩⟩
        emptyCluster).1
      = mariadbCalls "/d" "pw" "na" mariadbPVTemplate
          ⟨⟨some "pvc"⟩⟩ ⟨⟨some "svc"⟩⟩ ⟨⟨some "dep"⟩⟩ :=
  (create_sequence_order (fun _ => false) "/d" "pw" "na"
    mariadbPVTemplate ⟨⟨some "pvc"⟩⟩ ⟨⟨some "svc"⟩⟩ ⟨⟨some "dep"⟩⟩
    emptyCluster (by decide)).2.2.1 (by decide)

/-- C6: `remove_mariadb` issues exactly the deletion of namespace
`kwpm-mariadb` followed by the deletion of persistent volume
`kwpm-mariadb-pv`, with no existence check: a run with no error issued
both calls in that order; if the namespace deletion fails — including
when no such namespace exists, which surfaces the remote not-found error
— the run stops after that single call, the persistent-volume deletion is
never attempted and the cluster is unchanged; every reported error is the
remote-API error. -/
theorem remove_two_deletes (fail : ApiCall → Bool) (c : Cluster) :
    ((remove_mariadb fail c).2.2 = none →
      (remove_mariadb fail c).1
        = [.deleteNamespace "kwpm-mariadb", .deletePV "kwpm-mariadb-pv"]) ∧
    (fail (.deleteNamespace "kwpm-mariadb") = true →
      remove_mariadb fail c
        = ([.deleteNamespace "kwpm-mariadb"], c, some .remoteAPIError)) ∧
    (fail (.deleteNamespace "kwpm-mariadb") = false →
      c.namespaces.any (fun n => nsName n == "kwpm-mariadb") = false →
      remove_mariadb fail c
        = ([.deleteNamespace "kwpm-mariadb"], c, some .remoteAPIError)) ∧
    (∀ e, (remove_mariadb fail c).2.2 = some e → e = .remoteAPIError) ∧
    ((remove_mariadb fail c).1 = [.deleteNamespace "kwpm-mariadb"] ∨
      (remove_mariadb fail c).1
        = [.deleteNamespace "kwpm-mariadb", .deletePV "kwpm-mariadb-pv"]) := by
  refine ⟨?_, ?_, ?_, ?_, ?_⟩
  · intro hn
    exact runCalls_none_trace hn
  · intro hf
    simp [remove_mariadb, runCalls, hf]
  · intro hf hne
    have hcall : runCall c (.deleteNamespace "kwpm-mariadb")
        = .error .remoteAPIError := by
      simp only [runCall]
      rw [if_neg]
      simp [hne]
    simp [remove_mariadb, runCalls, hf, hcall]
  · intro e he
    exact (runCalls_some_spec he).1
  · cases he : (remove_mariadb fail c).2.2 with
    | none => exact Or.inr (runCalls_none_trace he)
    | some e =>
      obtain ⟨_, n, hlen, htr, _⟩ := runCalls_some_spec he
      have hn2 : n < 2 := by simpa using hlen
      rcases n with _ | n
      · exact Or.inl htr
      · rcases n with _ | n
        · exact Or.inr htr
        · omega

/-- Witness for C6: removing from an empty cluster surfaces the
not-found remote error after the single namespace deletion call. -/
theorem remove_two_deletes_witness :
    remove_mariadb (fun _ => false) emptyCluster
      = ([.deleteNamespace "kwpm-mariadb"], emptyCluster,
         some .remoteAPIError) :=
  (remove_two_deletes (fun _ => false) emptyCluster).2.2.1 rfl (by decide)

/-- C7: starting from a cluster with no managed `-mariadb` namespace, a
successful `create_mariadb_if_not_exists` makes the existence check true,
and a subsequent successful `remove_mariadb` makes it false again. -/
theorem create_remove_roundtrip (fail fail2 : ApiCall → Bool)
    (bp pw nh : String)
    (pvT : PersistentVolume) (pvcT : PersistentVolumeClaim) (svcT : Service)
    (depT : Deployment) (c : Cluster)
    (h0 : is_mariadb_created c.namespaces = false)
    (h1 : (create_mariadb_if_not_exists fail bp pw nh pvT pvcT svcT depT c).2.2
      = none) :
    is_mariadb_created
        ((create_mariadb_if_not_exists fail bp pw nh pvT pvcT svcT depT
          c).2.1).namespaces = true ∧
    ((remove_mariadb fail2
        (create_mariadb_if_not_exists fail bp pw nh pvT pvcT svcT depT
          c).2.1).2.2 = none →
      is_mariadb_created
          ((remove_mariadb fail2
            (create_mariadb_if_not_exists fail bp pw nh pvT pvcT svcT depT
              c).2.1).2.1).namespaces = false) := by
  have hns := create_success_namespaces h1
  constructor
  · rw [hns]
    exact is_mariadb_created_of_mem
      (List.mem_append_right _ (List.mem_singleton.2 rfl))
      (by decide) (by decide)
  · intro h2
    obtain ⟨cm, hok, heq, _⟩ := runCalls_cons_none h2
    have hmid := runCall_deleteNamespace_ok hok
    show is_mariadb_created
        ((runCalls fail2
          (create_mariadb_if_not_exists fail bp pw nh pvT pvcT svcT depT c).2.1
          [ApiCall.deleteNamespace "kwpm-mariadb",
           ApiCall.deletePV "kwpm-mariadb-pv"]).2.1).namespaces = false
    rw [heq]
    show is_mariadb_created
        ((runCalls fail2 cm [ApiCall.deletePV "kwpm-mariadb-pv"]).2.1).namespaces
        = false
    rw [runCalls_ns_frozen (by intro x hx; simp at hx; rw [hx]; rfl)]
    rw [hmid]
    show is_mariadb_created
        (((create_mariadb_if_not_exists fail bp pw nh pvT pvcT svcT depT
          c).2.1).namespaces.filter
            (fun n => nsName n != "kwpm-mariadb")) = false
    refine is_mariadb_created_false_of_sub ?_ h0
    intro ns hmem
    rw [hns] at hmem
    have hmem2 := List.mem_filter.1 hmem
    have hne := hmem2.2
    rcases List.mem_append.1 hmem2.1 with hin | hin
    · exact hin
    · exfalso
      rw [List.mem_singleton.1 hin] at hne
      simp [nsName, kwpmMariadbNamespace] at hne
  
/-- Witness for C7: the full round trip on the empty cluster. -/
theorem create_remove_roundtrip_witness :
    is_mariadb_created
        ((create_mariadb_if_not_exists (fun _ => false) "/d" "pw" "na"
          mariadbPVTemplate ⟨⟨some "pvc"⟩⟩ ⟨⟨some "svc"⟩⟩ ⟨⟨some "dep"⟩⟩
          emptyCluster).2.1).namespaces = true ∧
    is_mariadb_created
        ((remove_mariadb (fun _ => false)
          (create_mariadb_if_not_exists (fun _ => false) "/d" "pw" "na"
            mariadbPVTemplate ⟨⟨some "pvc"⟩⟩ ⟨⟨some "svc"⟩⟩ ⟨⟨some "dep"⟩⟩
            emptyCluster).2.1).2.1).namespaces = false :=
  ⟨(create_remove_roundtrip (fun _ => false) (fun _ => false) "/d" "pw" "na"
      mariadbPVTemplate ⟨⟨some "pvc"⟩⟩ ⟨⟨some "svc"⟩⟩ ⟨⟨some "dep"⟩⟩
      emptyCluster (by decide) (by decide)).1,
   (create_remove_roundtrip (fun _ => false) (fun _ => false) "/d" "pw" "na"
      mariadbPVTemplate ⟨⟨some "pvc"⟩⟩ ⟨⟨some "svc"⟩⟩ ⟨⟨some "dep"⟩⟩
      emptyCluster (by decide) (by decide)).2 (by decide)⟩

/-- C5: for every storage base path, node hostname and secret value, the
composed persistent volume (injected into the template) has local path
`{pv_base_path}/mariadb` and a node affinity requiring
`kubernetes.io/hostname In [node_hostname]`, and the composed secret is
named `mysql-pass` with its data map holding exactly
`password ↦ mysql_root_password`. -/
theorem composed_objects_spec (bp nh pw : String) :
    (∃ s l, (injectPV bp nh mariadbPVTemplate).spec = some s ∧
      s.«local» = some l ∧ l.path = bp ++ "/mariadb") ∧
    (∃ s, (injectPV bp nh mariadbPVTemplate).spec = some s ∧
      s.node_affinity
        = some ⟨some ⟨[⟨some [⟨"kubernetes.io/hostname", "In",
            some [nh]⟩]⟩]⟩⟩) ∧
    (mariadbSecret pw).metadata.name = some "mysql-pass" ∧
    (mariadbSecret pw).string_data = some [("password", pw)] := by
  exact ⟨⟨_, _, rfl, rfl, rfl⟩, ⟨_, rfl, rfl⟩, rfl, rfl⟩

/-- C10: the storage-path rewrite happens exactly when the template has
both a `spec` and a `local` source; the node affinity is injected exactly
when the template has a `spec`; a template without a `spec` flows through
unmodified and unpinned and is still the object of the persistent-volume
creation call. -/
theorem injectPV_conditional (bp pw nh : String) (pv : PersistentVolume)
    (pvcT : PersistentVolumeClaim) (svcT : Service) (depT : Deployment) :
    (∀ s l, pv.spec = some s → s.«local» = some l →
      (injectPV bp nh pv).spec
        = some { s with
                 «local» := some { l with path := bp ++ "/mariadb" },
                 node_affinity := some (pinToHost nh) }) ∧
    (∀ s, pv.spec = some s → s.«local» = none →
      (injectPV bp nh pv).spec
        = some { s with node_affinity := some (pinToHost nh) }) ∧
    (pv.spec = none →
      injectPV bp nh pv = pv ∧
      (mariadbCalls bp pw nh pv pvcT svcT depT).get? 1
        = some (.createPV pv)) := by
  refine ⟨?_, ?_, ?_⟩
  · intro s l hs hl
    simp [injectPV, hs, hl]
  · intro s hs hl
    simp [injectPV, hs, hl]
  · intro hs
    have hid : injectPV bp nh pv = pv := by
      simp [injectPV, hs]
    exact ⟨hid, by simp [mariadbCalls, hid]⟩

/-- Witness for C10: a template with no `spec` is passed through
unchanged. -/
theorem injectPV_conditional_witness :
    injectPV "/d" "na" ⟨⟨some "pv"⟩, none⟩ = ⟨⟨some "pv"⟩, none⟩ ∧
    (mariadbCalls "/d" "pw" "na" ⟨⟨some "pv"⟩, none⟩
        ⟨⟨some "pvc"⟩⟩ ⟨⟨some "svc"⟩⟩ ⟨⟨some "dep"⟩⟩).get? 1
      = some (.createPV ⟨⟨some "pv"⟩, none⟩) :=
  (injectPV_conditional "/d" "pw" "na" ⟨⟨some "pv"⟩, none⟩
    ⟨⟨some "pvc"⟩⟩ ⟨⟨some "svc"⟩⟩ ⟨⟨some "dep"⟩⟩).2.2 rfl

end Kwpm
